import Mathlib

/-!
Shallow embedding of `src/coinbase-api-client.js` (CoinbaseBaseClient /
CoinbaseClient): JS values, the authenticated-request pipeline
(`httpRequest`, `refreshToken`, `revokeToken`), header construction
(`getAPIAuthHeaders`, `getOAuthHeaders`, `getRequestParams`), and the
in-place deep-merge used by the money endpoints.

HTTP transport is modelled as an oracle `Nat → TransportResult` consumed one
response per issued request; the HMAC primitive (external `crypto` module) is
a function parameter; the single-slot event registry is a name-indexed map.
-/

namespace Coinbase

/-- JS values as they appear in this client: JSON data plus `undefined`. -/
inductive JsVal where
  | undef
  | null
  | bool (b : Bool)
  | num (n : Int)
  | str (s : String)
  | arr (xs : List JsVal)
  | obj (fs : List (String × JsVal))
deriving Repr

/-- JS truthiness (`if (v)`): `undefined`, `null`, `false`, `0`, `''` are
falsy; every object and array is truthy. -/
def jsTruthy : JsVal → Bool
  | JsVal.undef => false
  | JsVal.null => false
  | JsVal.bool b => b
  | JsVal.num n => n != 0
  | JsVal.str s => s ≠ ""
  | JsVal.arr _ => true
  | JsVal.obj _ => true

/-- JS loose non-null check (`v != null`): false exactly on `null` and
`undefined`. -/
def jsNeqNull : JsVal → Bool
  | JsVal.undef => false
  | JsVal.null => false
  | _ => true

/-- JS property read `v.k`: first binding in an object, `undefined` on a
missing key or a primitive receiver. -/
def getField (v : JsVal) (k : String) : JsVal :=
  match v with
  | JsVal.obj fs =>
    match fs.find? (fun kv => kv.1 = k) with
    | some kv => kv.2
    | none => JsVal.undef
  | _ => JsVal.undef

/-- `Object.entries(v).length`: field count of an object, element count of an
array, character count of a string, `0` for other primitives. -/
def entriesLen : JsVal → Nat
  | JsVal.obj fs => fs.length
  | JsVal.arr xs => xs.length
  | JsVal.str s => s.length
  | _ => 0

/-- JS property write `o.k = v`: overwrite an existing binding in place
(keys of a JS object are unique, so the first match is the binding), append a
fresh key at the end. -/
def setFieldJs (o : List (String × JsVal)) (k : String) (v : JsVal) :
    List (String × JsVal) :=
  match o with
  | [] => [(k, v)]
  | kv :: rest =>
    if kv.1 = k then (k, v) :: rest else kv :: setFieldJs rest k v

/-- `assign-deep` with a flat source object: each source binding is written
into the target, mutating it (the result is the target object itself). -/
def assignFields (target source : List (String × JsVal)) :
    List (String × JsVal) :=
  source.foldl (fun t kv => setFieldJs t kv.1 kv.2) target

/-- JSON string escaping for the characters produced by this client. -/
def escChar (c : Char) : List Char :=
  if c = '"' then ['\\', '"']
  else if c = '\\' then ['\\', '\\']
  else [c]

/-- Escape every character of a string for JSON output. -/
def escapeStr (s : String) : String :=
  String.mk (s.data.foldr (fun c acc => escChar c ++ acc) [])

mutual

/-- `JSON.stringify`: object fields with `undefined` values are dropped,
`undefined` array elements serialize as `null`. -/
def stringifyJson : JsVal → String
  | JsVal.undef => "undefined"
  | JsVal.null => "null"
  | JsVal.bool true => "true"
  | JsVal.bool false => "false"
  | JsVal.num n => toString n
  | JsVal.str s => "\"" ++ escapeStr s ++ "\""
  | JsVal.arr xs => "[" ++ String.intercalate "," (stringifyArr xs) ++ "]"
  | JsVal.obj fs => "\x7b" ++ String.intercalate "," (stringifyObj fs) ++ "\x7d"

/-- Serialize array elements (`undefined` becomes `null`). -/
def stringifyArr : List JsVal → List String
  | [] => []
  | JsVal.undef :: rest => "null" :: stringifyArr rest
  | v :: rest => stringifyJson v :: stringifyArr rest

/-- Serialize object fields, dropping `undefined`-valued keys. -/
def stringifyObj : List (String × JsVal) → List String
  | [] => []
  | (_, JsVal.undef) :: rest => stringifyObj rest
  | (k, v) :: rest =>
    ("\"" ++ escapeStr k ++ "\":" ++ stringifyJson v) :: stringifyObj rest

end

/-- An error value thrown/rejected in the client: the distinguished
`ExpiredTokenError` class, a plain `Error` with a message (the
`'HTTP error ...'` case), or an opaque external error (transport failure or
a value thrown by user callback code). -/
inductive JsError where
  | expiredToken (msg : String)
  | generic (msg : String)
  | ext (n : Nat)
deriving Repr, DecidableEq

/-- Outcome the transport delivers to the request callback `(err, res)`. -/
inductive TransportResult where
  | err (e : JsError)
  | ok (statusCode : Nat) (body : JsVal)

/-- The mutable fields written by `CoinbaseBaseClient`'s constructor, plus
the `_events` registry (`Map` from event name to handler; the handler is
awaited, so it yields a value or throws). -/
structure ClientState where
  _apiKey : JsVal
  _apiSecret : JsVal
  _accessToken : JsVal
  _refreshToken : JsVal
  _clientId : JsVal
  _clientSecret : JsVal
  _events : String → Option (JsVal → Except JsError JsVal)

/-- Constructor options (destructured; a missing key reads as `undefined`). -/
structure Options where
  apiKey : JsVal := JsVal.undef
  apiSecret : JsVal := JsVal.undef
  accessToken : JsVal := JsVal.undef
  refreshToken : JsVal := JsVal.undef
  clientId : JsVal := JsVal.undef
  clientSecret : JsVal := JsVal.undef

/-- `new CoinbaseBaseClient(options)`: copy the six credential fields and
start with an empty `_events` map. -/
def mkClient (o : Options) : ClientState :=
  { _apiKey := o.apiKey
    _apiSecret := o.apiSecret
    _accessToken := o.accessToken
    _refreshToken := o.refreshToken
    _clientId := o.clientId
    _clientSecret := o.clientSecret
    _events := fun _ => none }

/-- `on(eventName, eventFn)`: `Map.set`, the last registration wins. -/
def onEvent (c : ClientState) (name : String)
    (fn : JsVal → Except JsError JsVal) : ClientState :=
  { c with _events := fun n => if n = name then some fn else c._events n }

/-- `get isOAuth () { return this._accessToken != null }` -/
def ClientState.isOAuth (c : ClientState) : Bool :=
  jsNeqNull c._accessToken

/-- The own properties assigned by the constructor; the `accessToken` name
(no underscore) is never among them. -/
def ClientState.ownProps (c : ClientState) : List (String × JsVal) :=
  [("_apiKey", c._apiKey), ("_apiSecret", c._apiSecret),
    ("_accessToken", c._accessToken), ("_refreshToken", c._refreshToken),
    ("_clientId", c._clientId), ("_clientSecret", c._clientSecret)]

/-- JS property read `this.k` on a client instance: an own data property, or
the prototype getter `isOAuth`, otherwise `undefined`. -/
def getProp (c : ClientState) (k : String) : JsVal :=
  if k = "isOAuth" then JsVal.bool c.isOAuth
  else
    match (c.ownProps).find? (fun kv => kv.1 = k) with
    | some kv => kv.2
    | none => JsVal.undef

/-- The request-parameter object after the `assign` in `getRequestParams`:
`url`, `json: true`, the merged `headers` map, the optional `auth` block
(`\x7bbearer: token\x7d`, kept as the bearer value), and the optional body. -/
structure Params where
  url : String
  json : Bool
  headers : List (String × JsVal)
  auth : JsVal
  body : JsVal

/-- Observable events of a run: an HTTP request issued to a URL, or the
`didRefreshToken` handler invoked with a payload. -/
inductive Ev where
  | httpCall (url : String)
  | cbCall (payload : JsVal)

/-- Whole-run state: client fields, the transport oracle (response for the
n-th issued request), how many requests were issued, the event trace, and the
ambient clock / HMAC primitive read by the header builder. -/
structure World where
  st : ClientState
  transport : Nat → TransportResult
  calls : Nat
  trace : List Ev
  hmac : String → String → String
  nowMs : Nat

def COINBASE_API : String := "https://api.coinbase.com"

/-- `getDefaultHeaders().headers`. -/
def defaultHeaders : List (String × JsVal) :=
  [("CB-VERSION", JsVal.str "2016-08-09"),
    ("Content-Type", JsVal.str "application/json"),
    ("Accept", JsVal.str "application/json"),
    ("Accept-Language", JsVal.str "en")]

/-- `getAPIAuthHeaders(path, method, body)`: unix-seconds timestamp from the
clock, HMAC-SHA256 (hex) of `timestamp + method + path + (body ?
JSON.stringify(body) : '')` under the API secret. -/
def getAPIAuthHeaders (hmac : String → String → String) (nowMs : Nat)
    (apiKey apiSecret : String) (path method : String) (body : JsVal) :
    List (String × JsVal) :=
  let timestamp : Nat := nowMs / 1000
  let message := toString timestamp ++ method ++ path ++
    (if jsTruthy body then stringifyJson body else "")
  let signature := hmac apiSecret message
  [("CB-ACCESS-KEY", JsVal.str apiKey),
    ("CB-ACCESS-SIGN", JsVal.str signature),
    ("CB-ACCESS-TIMESTAMP", JsVal.num timestamp)]

/-- Coerce a stored credential to the string the `crypto`/header layer gets
in a well-formed API-key client. -/
def jsStr : JsVal → String
  | JsVal.str s => s
  | _ => ""

/-- `getRequestParams(method, path, body)`: deep-merge of `\x7burl\x7d`, the
default headers, the mode's auth headers, and — only when the body is a
non-null value with at least one entry — the body itself. -/
def getRequestParams (w : World) (method path : String) (body : JsVal) :
    Params :=
  { url := COINBASE_API ++ path
    json := true
    headers :=
      if w.st.isOAuth then defaultHeaders
      else assignFields defaultHeaders
        (getAPIAuthHeaders w.hmac w.nowMs (jsStr w.st._apiKey)
          (jsStr w.st._apiSecret) path method body)
    auth :=
      if w.st.isOAuth then JsVal.obj [("bearer", w.st._accessToken)]
      else JsVal.undef
    body :=
      if jsNeqNull body && entriesLen body > 0 then body else JsVal.undef }

/-- The inner `send()` closure of `httpRequest`: issue one exchange, reject a
transport error, classify a 401 under OAuth as `ExpiredTokenError`, any other
status ≥ 300 as an HTTP error, and unwrap `res.body.data ? res.body.data :
res.body` on success. `that.isOAuth` is read at response time. -/
def sendOnce (p : Params) (w : World) : Except JsError JsVal × World :=
  let w1 : World :=
    { w with calls := w.calls + 1, trace := w.trace ++ [Ev.httpCall p.url] }
  match w.transport w.calls with
  | TransportResult.err e => (Except.error e, w1)
  | TransportResult.ok status body =>
    if w1.st.isOAuth && status == 401 then
      (Except.error (JsError.expiredToken (stringifyJson body)), w1)
    else if status ≥ 300 then
      (Except.error (JsError.generic
        ("HTTP error " ++ toString status ++ " " ++ stringifyJson body)), w1)
    else if jsTruthy (getField body "data") then
      (Except.ok (getField body "data"), w1)
    else
      (Except.ok body, w1)

/-- The request body of `refreshToken`'s POST to `/oauth/token`. -/
def refreshBody (c : ClientState) : JsVal :=
  JsVal.obj [("grant_type", JsVal.str "refresh_token"),
    ("client_id", c._clientId),
    ("client_secret", c._clientSecret),
    ("refresh_token", c._refreshToken)]

/-- `httpRequest(fn, params, false)`: with `refresh=false` the catch clause
rethrows every error, so the exchange is the single inner send. Stated
non-recursively so the whole pipeline reduces; `httpRequest_false_eq` below
proves it equal to the general `httpRequest` at `refresh = false`. -/
def httpRequestNR (p : Params) (w : World) : Except JsError JsVal × World :=
  match sendOnce p w with
  | (Except.ok v, w1) => (Except.ok v, w1)
  | (Except.error e, w1) => (Except.error e, w1)

/-- `refreshToken()`: `httpPost('/oauth/token', grant, false)`; on a truthy
result store `res.access_token` / `res.refresh_token`, then await the
registered `didRefreshToken` handler (its error propagates); return the
result either way. -/
def refreshTokenFn (w : World) : Except JsError JsVal × World :=
  match httpRequestNR
      (getRequestParams w "POST" "/oauth/token" (refreshBody w.st)) w with
  | (Except.error e, w1) => (Except.error e, w1)
  | (Except.ok res, w1) =>
    if jsTruthy res then
      let st1 : ClientState :=
        { w1.st with
          _accessToken := getField res "access_token"
          _refreshToken := getField res "refresh_token" }
      let w2 : World := { w1 with st := st1 }
      match st1._events "didRefreshToken" with
      | some cb =>
        let w3 : World := { w2 with trace := w2.trace ++ [Ev.cbCall res] }
        (match cb res with
          | Except.error e => (Except.error e, w3)
          | Except.ok _ => (Except.ok res, w3))
      | none => (Except.ok res, w2)
    else
      (Except.ok res, w1)

/-- `httpRequest(fn, params, refresh)`: await the inner send; on an
`ExpiredTokenError` with `refresh === true`, await `refreshToken()`; when its
result is truthy, retry once with `assign(params, this.getOAuthHeaders())`
(only the `auth.bearer` slot changes, to the post-refresh token); when the
result is falsy the catch block falls through and the call resolves with
`undefined`. Any other error is rethrown. -/
def httpRequest (p : Params) (refresh : Bool) (w : World) :
    Except JsError JsVal × World :=
  match sendOnce p w with
  | (Except.ok v, w1) => (Except.ok v, w1)
  | (Except.error e, w1) =>
    match e, refresh with
    | JsError.expiredToken _, true =>
      (match refreshTokenFn w1 with
        | (Except.error e2, w2) => (Except.error e2, w2)
        | (Except.ok res, w2) =>
          if jsTruthy res then
            sendOnce { p with auth := JsVal.obj [("bearer", w2.st._accessToken)] } w2
          else
            (Except.ok JsVal.undef, w2))
    | _, _ => (Except.error e, w1)

/-- `httpPost(path, body, refresh)` (the default for `refresh` is `true`). -/
def httpPostFn (w : World) (path : String) (body : JsVal)
    (refresh : Bool := true) : Except JsError JsVal × World :=
  httpRequest (getRequestParams w "POST" path body) refresh w

/-- The body object `\x7btoken: this.accessToken\x7d` built by
`revokeToken`. -/
def revokeBody (c : ClientState) : JsVal :=
  JsVal.obj [("token", getProp c "accessToken")]

/-- `revokeToken()`: POST to `/oauth/revoke`; the `refresh` argument is not
passed, so `httpPost`'s default applies. -/
def revokeTokenFn (w : World) : Except JsError JsVal × World :=
  httpPostFn w "/oauth/revoke" (revokeBody w.st)

/-- URL of the token-refresh endpoint. -/
def refreshUrl : String := COINBASE_API ++ "/oauth/token"

/-- How many issued requests in the trace went to the given URL. -/
def countCallsTo (url : String) (tr : List Ev) : Nat :=
  (tr.filter (fun e => match e with
    | Ev.httpCall u => u = url
    | _ => false)).length

/-- The payloads the `didRefreshToken` handler was invoked with, in order. -/
def cbPayloads (tr : List Ev) : List JsVal :=
  tr.filterMap (fun e => match e with
    | Ev.cbCall v => some v
    | _ => none)

/-! Concrete scenario data (the spec's mock-transport scenarios). -/

/-- A `didRefreshToken` handler that succeeds. -/
def sampleCbOk : JsVal → Except JsError JsVal := fun _ => Except.ok JsVal.undef

/-- The refresh endpoint's success payload from the spec scenario. -/
def sampleRefreshRes : JsVal :=
  JsVal.obj [("access_token", JsVal.str "new"),
    ("refresh_token", JsVal.str "r2"), ("expires_in", JsVal.num 3600)]

/-- The retried request's success response body from the spec scenario. -/
def sampleUserRes : JsVal :=
  JsVal.obj [("data", JsVal.obj [("id", JsVal.str "u1")])]

/-- OAuth client `accessToken="old"`, `refreshToken="r1"`, with a succeeding
`didRefreshToken` handler registered. -/
def sampleOAuthClient : ClientState :=
  onEvent
    (mkClient { accessToken := JsVal.str "old", refreshToken := JsVal.str "r1",
                clientId := JsVal.str "cid", clientSecret := JsVal.str "cs" })
    "didRefreshToken" sampleCbOk

/-- Mock transport: 401, then refresh success, then 200 with the user. -/
def sampleTransport : Nat → TransportResult := fun n =>
  match n with
  | 0 => TransportResult.ok 401 (JsVal.obj [])
  | 1 => TransportResult.ok 200 sampleRefreshRes
  | _ => TransportResult.ok 200 sampleUserRes

/-- World for the 401-refresh-retry success scenario. -/
def sampleWorld : World :=
  { st := sampleOAuthClient, transport := sampleTransport, calls := 0,
    trace := [], hmac := fun _ _ => "hex", nowMs := 0 }

/-- Request parameters of the original `GET /v2/user` call. -/
def sampleParams : Params :=
  getRequestParams sampleWorld "GET" "/v2/user" JsVal.undef

/-- Mock transport: 401, refresh success, then 401 again. -/
def sampleTransport401 : Nat → TransportResult := fun n =>
  match n with
  | 0 => TransportResult.ok 401 (JsVal.obj [])
  | 1 => TransportResult.ok 200 sampleRefreshRes
  | _ => TransportResult.ok 401 (JsVal.obj [("errors", JsVal.arr [])])

/-- World for the 401-refresh-401 scenario. -/
def sampleWorld401 : World := { sampleWorld with transport := sampleTransport401 }

/-- Mock transport: 401, then the refresh call answers 200 with the falsy
body `''`. -/
def sampleTransportFalsy : Nat → TransportResult := fun n =>
  match n with
  | 0 => TransportResult.ok 401 (JsVal.obj [])
  | _ => TransportResult.ok 200 (JsVal.str "")

/-- World for the falsy-refresh-result scenario. -/
def sampleWorldFalsy : World := { sampleWorld with transport := sampleTransportFalsy }

/-- Mock transport for a revoke call: 401, refresh success, then 200. -/
def sampleTransportRevoke : Nat → TransportResult := fun n =>
  match n with
  | 0 => TransportResult.ok 401 (JsVal.obj [])
  | 1 => TransportResult.ok 200 sampleRefreshRes
  | _ => TransportResult.ok 200 (JsVal.obj [("ok", JsVal.bool true)])

/-- World for the revoke-hits-401 scenario. -/
def sampleWorldRevoke : World := { sampleWorld with transport := sampleTransportRevoke }

/-- Mock transport whose refresh answer is truthy but has no
`access_token` field. -/
def sampleTransportNoTok : Nat → TransportResult := fun _ =>
  TransportResult.ok 200 (JsVal.obj [("refresh_token", JsVal.str "r2")])

/-- World for the token-dropping refresh scenario. -/
def sampleWorldNoTok : World := { sampleWorld with transport := sampleTransportNoTok }

/-- OAuth client whose `didRefreshToken` handler throws. -/
def sampleOAuthClientThrow : ClientState :=
  onEvent
    (mkClient { accessToken := JsVal.str "old", refreshToken := JsVal.str "r1" })
    "didRefreshToken" (fun _ => Except.error (JsError.ext 7))

/-- World for the throwing-handler scenario. -/
def sampleWorldThrow : World := { sampleWorld with st := sampleOAuthClientThrow }

/-- Transport that always answers the refresh success payload. -/
def sampleWorldRefreshOnly : World :=
  { sampleWorld with transport := fun _ => TransportResult.ok 200 sampleRefreshRes }

/-- Transport that always answers 200 with the enveloped user body. -/
def sampleWorldPlain : World :=
  { sampleWorld with transport := fun _ => TransportResult.ok 200 sampleUserRes }

/-- A response body whose `data` key is present but `null`. -/
def sampleNullData : JsVal :=
  JsVal.obj [("data", JsVal.null), ("a", JsVal.num 1)]

/-- Transport that always answers 200 with a falsy `data` field. -/
def sampleWorldNullData : World :=
  { sampleWorld with transport := fun _ => TransportResult.ok 200 sampleNullData }

/-! ## The heap model for the in-place `assign-deep` merge

`assign(params, \x7btype: ...\x7d)` mutates its first argument and returns
it; the money endpoints are modelled against an explicit object heap so that
aliasing between the caller's object and the posted body is visible. -/

/-- An object reference. -/
abbrev Ref := Nat

/-- A heap of JS objects. -/
abbrev Heap := Ref → List (String × JsVal)

/-- `assign(target, source)` for a flat source: write every source binding
into the target object in place; the returned reference is the target. -/
def assignInto (h : Heap) (r : Ref) (source : List (String × JsVal)) : Heap :=
  fun r' => if r' = r then assignFields (h r') source else h r'

/-- `sendMoney(accountId, params)`:
`httpPost(path, assign(params, \x7btype: 'send'\x7d))`; the posted body is
the caller's own (mutated) object. Yields the heap after the merge, the path
posted to, and the reference passed as the body. -/
def sendMoney (h : Heap) (accountId : String) (params : Ref) :
    Heap × String × Ref :=
  (assignInto h params [("type", JsVal.str "send")],
    "/v2/accounts/" ++ accountId ++ "/transactions", params)

/-- `transferMoney(accountId, params)`: as `sendMoney` with
`type: 'transfer'`. -/
def transferMoney (h : Heap) (accountId : String) (params : Ref) :
    Heap × String × Ref :=
  (assignInto h params [("type", JsVal.str "transfer")],
    "/v2/accounts/" ++ accountId ++ "/transactions", params)

/-- `requestMoney(accountId, params)`: as `sendMoney` with
`type: 'request'`. -/
def requestMoney (h : Heap) (accountId : String) (params : Ref) :
    Heap × String × Ref :=
  (assignInto h params [("type", JsVal.str "request")],
    "/v2/accounts/" ++ accountId ++ "/transactions", params)

/-! ## Theorems -/

/-- `httpRequest` with `refresh = false` rethrows every error of the single
inner send: it is exactly the non-recursive exchange `httpRequestNR`. -/
theorem httpRequest_false_eq (p : Params) (w : World) :
    httpRequest p false w = httpRequestNR p w := by
  unfold httpRequest httpRequestNR
  rcases h : sendOnce p w with ⟨r, w1⟩
  cases r with
  | ok v => rfl
  | error e => cases e <;> rfl

/-- `httpPost(path, body, false)` — the dispatch used by `refreshToken` — is
the single exchange `refreshTokenFn` is built on. -/
theorem httpPost_false_eq (w : World) (path : String) (body : JsVal) :
    httpPostFn w path body false =
      httpRequestNR (getRequestParams w "POST" path body) w :=
  httpRequest_false_eq _ _

/-- A single exchange answered with a status below 300 resolves with the
unwrapped body and records one issued request. -/
theorem sendOnce_2xx (p : Params) (w : World) (s : Nat) (b : JsVal)
    (htr : w.transport w.calls = TransportResult.ok s b) (hs : s < 300) :
    sendOnce p w =
      (Except.ok (if jsTruthy (getField b "data") then getField b "data" else b),
        { w with calls := w.calls + 1, trace := w.trace ++ [Ev.httpCall p.url] }) := by
  have hbeq : (s == 401) = false := beq_eq_false_iff_ne.mpr (by omega)
  have h3 : ¬ s ≥ 300 := by omega
  simp [sendOnce, htr, hbeq, h3]
  split <;> rfl

/-- A single exchange answered 401 while the client is in OAuth mode rejects
with `ExpiredTokenError`. -/
theorem sendOnce_401_oauth (p : Params) (w : World) (b : JsVal)
    (htr : w.transport w.calls = TransportResult.ok 401 b)
    (ho : w.st.isOAuth = true) :
    sendOnce p w =
      (Except.error (JsError.expiredToken (stringifyJson b)),
        { w with calls := w.calls + 1, trace := w.trace ++ [Ev.httpCall p.url] }) := by
  simp [sendOnce, htr, ho]

/-- A single exchange answered 401 without OAuth rejects with the plain HTTP
status error. -/
theorem sendOnce_401_noauth (p : Params) (w : World) (b : JsVal)
    (htr : w.transport w.calls = TransportResult.ok 401 b)
    (ho : w.st.isOAuth = false) :
    sendOnce p w =
      (Except.error (JsError.generic
          ("HTTP error " ++ toString (401 : Nat) ++ " " ++ stringifyJson b)),
        { w with calls := w.calls + 1, trace := w.trace ++ [Ev.httpCall p.url] }) := by
  simp [sendOnce, htr, ho]

/-- C2: for every response with a successful status, the dispatcher resolves
with the body's `data` field when that field is present and truthy, and with
the decoded body unchanged otherwise — in particular when `data` is absent or
holds a falsy value such as `null`, `0` or `''`. -/
theorem dispatcher_unwraps_data (p : Params) (w : World) (s : Nat) (b : JsVal)
    (htr : w.transport w.calls = TransportResult.ok s b) (hs : s < 300) :
    (sendOnce p w).1 =
      Except.ok (if jsTruthy (getField b "data") then getField b "data" else b)
    ∧ ((getField b "data" = JsVal.undef ∨ getField b "data" = JsVal.null
        ∨ getField b "data" = JsVal.num 0 ∨ getField b "data" = JsVal.str "")
        → (sendOnce p w).1 = Except.ok b) := by
  have h := sendOnce_2xx p w s b htr hs
  refine ⟨by rw [h], fun hd => ?_⟩
  rw [h]
  rcases hd with hd | hd | hd | hd <;> simp [hd, jsTruthy]

/-- Witness for C2: the spec's two envelope examples — `\x7bdata: ...\x7d`
unwraps to the payload, a present-but-`null` `data` leaves the body
unchanged. -/
theorem dispatcher_unwraps_data_witness :
    (sendOnce sampleParams sampleWorldPlain).1 =
      Except.ok (JsVal.obj [("id", JsVal.str "u1")])
    ∧ (sendOnce sampleParams sampleWorldNullData).1 = Except.ok sampleNullData :=
  ⟨(dispatcher_unwraps_data sampleParams sampleWorldPlain 200 sampleUserRes
      rfl (by omega)).1,
    (dispatcher_unwraps_data sampleParams sampleWorldNullData 200 sampleNullData
      rfl (by omega)).2 (Or.inr (Or.inl rfl))⟩

/-- C9: for every credential state, the body `revokeToken` posts carries
`token: undefined` — `this.accessToken` is not a property the constructor
defines (the stored token lives in `_accessToken`) — so the serialized revoke
body is the empty object and the stored access token is never transmitted. -/
theorem revoke_token_field_undefined (c : ClientState) :
    getField (revokeBody c) "token" = JsVal.undef
    ∧ stringifyJson (revokeBody c) = "\x7b\x7d" :=
  ⟨rfl, rfl⟩

/-- Reading back the key just written by a JS property write. -/
theorem getField_set_same (o : List (String × JsVal)) (k : String) (v : JsVal) :
    getField (JsVal.obj (setFieldJs o k v)) k = v := by
  induction o with
  | nil => simp [setFieldJs, getField]
  | cons hd tl ih =>
    by_cases h : hd.1 = k
    · simp [setFieldJs, h, getField]
    · simpa [setFieldJs, h, getField] using ih

/-- A JS property write leaves every other key unchanged. -/
theorem getField_set_other (o : List (String × JsVal)) (k k' : String)
    (v : JsVal) (h : k' ≠ k) :
    getField (JsVal.obj (setFieldJs o k v)) k' = getField (JsVal.obj o) k' := by
  induction o with
  | nil => simp [setFieldJs, getField, Ne.symm h]
  | cons hd tl ih =>
    obtain ⟨k0, v0⟩ := hd
    by_cases hh : k0 = k
    · subst hh
      simp [setFieldJs, getField, Ne.symm h]
    · by_cases hk0 : k0 = k'
      · simp [setFieldJs, hh, getField, hk0, h]
      · simpa [setFieldJs, hh, getField, hk0] using ih

/-- C10: `sendMoney`, `transferMoney` and `requestMoney` merge the `type` tag
into the caller's own params object: the posted body is the very reference
the caller passed, its `type` field now reads `"send"` / `"transfer"` /
`"request"` (overwriting any caller-supplied `type`), and every other field
keeps the caller's value. -/
theorem money_endpoints_mutate_caller_params (hp : Heap) (accountId : String)
    (r : Ref) :
    ((sendMoney hp accountId r).2.2 = r
      ∧ getField (JsVal.obj ((sendMoney hp accountId r).1 r)) "type"
          = JsVal.str "send"
      ∧ ∀ k, k = "type"
          ∨ getField (JsVal.obj ((sendMoney hp accountId r).1 r)) k
              = getField (JsVal.obj (hp r)) k)
    ∧ ((transferMoney hp accountId r).2.2 = r
      ∧ getField (JsVal.obj ((transferMoney hp accountId r).1 r)) "type"
          = JsVal.str "transfer"
      ∧ ∀ k, k = "type"
          ∨ getField (JsVal.obj ((transferMoney hp accountId r).1 r)) k
              = getField (JsVal.obj (hp r)) k)
    ∧ ((requestMoney hp accountId r).2.2 = r
      ∧ getField (JsVal.obj ((requestMoney hp accountId r).1 r)) "type"
          = JsVal.str "request"
      ∧ ∀ k, k = "type"
          ∨ getField (JsVal.obj ((requestMoney hp accountId r).1 r)) k
              = getField (JsVal.obj (hp r)) k) := by
  refine ⟨⟨rfl, ?_, ?_⟩, ⟨rfl, ?_, ?_⟩, ⟨rfl, ?_, ?_⟩⟩ <;>
    simp only [sendMoney, transferMoney, requestMoney, assignInto, assignFields,
      List.foldl, if_pos rfl]
  · exact getField_set_same _ _ _
  · intro k
    by_cases hk : k = "type"
    · exact Or.inl hk
    · exact Or.inr (getField_set_other _ _ _ _ hk)
  · exact getField_set_same _ _ _
  · intro k
    by_cases hk : k = "type"
    · exact Or.inl hk
    · exact Or.inr (getField_set_other _ _ _ _ hk)
  · exact getField_set_same _ _ _
  · intro k
    by_cases hk : k = "type"
    · exact Or.inl hk
    · exact Or.inr (getField_set_other _ _ _ _ hk)

/-- C6: in API-key mode the `CB-ACCESS-SIGN` header is the HMAC (under the
API secret, via the injected primitive) of the unix-seconds timestamp carried
in `CB-ACCESS-TIMESTAMP`, concatenated with method, path and — when a body is
given — its JSON serialization, else the empty string; the timestamp is read
from the clock at signing time, so any two calls within the same unix second
with identical inputs produce identical headers. -/
theorem api_key_signature (hmac : String → String → String) (nowMs : Nat)
    (apiKey apiSecret path method : String) (body : JsVal) :
    getField (JsVal.obj
        (getAPIAuthHeaders hmac nowMs apiKey apiSecret path method body))
        "CB-ACCESS-TIMESTAMP"
      = JsVal.num (nowMs / 1000)
    ∧ (body = JsVal.undef →
        getField (JsVal.obj
            (getAPIAuthHeaders hmac nowMs apiKey apiSecret path method body))
            "CB-ACCESS-SIGN"
          = JsVal.str (hmac apiSecret
              (toString (nowMs / 1000) ++ method ++ path)))
    ∧ (jsTruthy body = true →
        getField (JsVal.obj
            (getAPIAuthHeaders hmac nowMs apiKey apiSecret path method body))
            "CB-ACCESS-SIGN"
          = JsVal.str (hmac apiSecret
              (toString (nowMs / 1000) ++ method ++ path ++ stringifyJson body)))
    ∧ (∀ m : Nat, m / 1000 = nowMs / 1000 →
        getAPIAuthHeaders hmac m apiKey apiSecret path method body
          = getAPIAuthHeaders hmac nowMs apiKey apiSecret path method body) := by
  refine ⟨rfl, fun hb => ?_, fun hb => ?_, fun m hm => ?_⟩
  · subst hb
    simp [getAPIAuthHeaders, getField, jsTruthy]
  · simp [getAPIAuthHeaders, getField, hb]
  · simp [getAPIAuthHeaders, hm]

/-- Witness for C6: concrete signature over `ts=1700000000`, `GET /v2/user`
with body `\x7ba: 1\x7d`, and clock stability within the second. -/
theorem api_key_signature_witness :
    getField (JsVal.obj
        (getAPIAuthHeaders (fun s m => s ++ "|" ++ m) 1700000000123 "key"
          "secret" "/v2/user" "GET" (JsVal.obj [("a", JsVal.num 1)])))
        "CB-ACCESS-SIGN"
      = JsVal.str "secret|1700000000GET/v2/user\x7b\"a\":1\x7d"
    ∧ getAPIAuthHeaders (fun s m => s ++ "|" ++ m) 1700000000955 "key"
          "secret" "/v2/user" "GET" (JsVal.obj [("a", JsVal.num 1)])
        = getAPIAuthHeaders (fun s m => s ++ "|" ++ m) 1700000000123 "key"
          "secret" "/v2/user" "GET" (JsVal.obj [("a", JsVal.num 1)]) :=
  ⟨by
    have h := (api_key_signature (fun s m => s ++ "|" ++ m) 1700000000123 "key"
      "secret" "/v2/user" "GET" (JsVal.obj [("a", JsVal.num 1)])).2.2.1 rfl
    rw [h]
    exact congrArg JsVal.str (by decide),
    (api_key_signature (fun s m => s ++ "|" ++ m) 1700000000123 "key" "secret"
      "/v2/user" "GET" (JsVal.obj [("a", JsVal.num 1)])).2.2.2
      1700000000955 (by norm_num)⟩

/-- The refresh exchange when the endpoint answers below 300 with a truthy,
non-enveloped payload while a `didRefreshToken` handler is registered: tokens
are stored, the handler runs, and its outcome decides the result. -/
theorem refreshTokenFn_2xx_cb (w : World) (s : Nat) (rb : JsVal)
    (cb : JsVal → Except JsError JsVal)
    (htr : w.transport w.calls = TransportResult.ok s rb) (hs : s < 300)
    (hdata : jsTruthy (getField rb "data") = false)
    (hrb : jsTruthy rb = true)
    (hcbreg : w.st._events "didRefreshToken" = some cb) :
    refreshTokenFn w =
      ((match cb rb with
        | Except.error e => Except.error e
        | Except.ok _ => Except.ok rb),
        { w with
          st := { w.st with
            _accessToken := getField rb "access_token"
            _refreshToken := getField rb "refresh_token" }
          calls := w.calls + 1
          trace := w.trace ++ [Ev.httpCall refreshUrl, Ev.cbCall rb] }) := by
  unfold refreshTokenFn httpRequestNR
  rw [sendOnce_2xx (getRequestParams w "POST" "/oauth/token" (refreshBody w.st))
    w s rb htr hs]
  simp only [hdata, Bool.false_eq_true, if_false, hrb, if_true]
  have hu : (getRequestParams w "POST" "/oauth/token" (refreshBody w.st)).url
      = refreshUrl := rfl
  rw [hu]
  simp only [hcbreg]
  cases hc : cb rb <;> simp [hc]

/-- The refresh exchange when no handler is registered. -/
theorem refreshTokenFn_2xx_nocb (w : World) (s : Nat) (rb : JsVal)
    (htr : w.transport w.calls = TransportResult.ok s rb) (hs : s < 300)
    (hdata : jsTruthy (getField rb "data") = false)
    (hrb : jsTruthy rb = true)
    (hcbreg : w.st._events "didRefreshToken" = none) :
    refreshTokenFn w =
      (Except.ok rb,
        { w with
          st := { w.st with
            _accessToken := getField rb "access_token"
            _refreshToken := getField rb "refresh_token" }
          calls := w.calls + 1
          trace := w.trace ++ [Ev.httpCall refreshUrl] }) := by
  unfold refreshTokenFn httpRequestNR
  rw [sendOnce_2xx (getRequestParams w "POST" "/oauth/token" (refreshBody w.st))
    w s rb htr hs]
  simp only [hdata, Bool.false_eq_true, if_false, hrb, if_true]
  have hu : (getRequestParams w "POST" "/oauth/token" (refreshBody w.st)).url
      = refreshUrl := rfl
  rw [hu]
  simp [hcbreg]

/-- The refresh exchange when the endpoint answers below 300 with a falsy
payload: nothing is stored, no handler runs, the falsy value is returned. -/
theorem refreshTokenFn_2xx_falsy (w : World) (s : Nat) (rb : JsVal)
    (htr : w.transport w.calls = TransportResult.ok s rb) (hs : s < 300)
    (hdata : jsTruthy (getField rb "data") = false)
    (hrb : jsTruthy rb = false) :
    refreshTokenFn w =
      (Except.ok rb,
        { w with
          calls := w.calls + 1
          trace := w.trace ++ [Ev.httpCall refreshUrl] }) := by
  unfold refreshTokenFn httpRequestNR
  rw [sendOnce_2xx (getRequestParams w "POST" "/oauth/token" (refreshBody w.st))
    w s rb htr hs]
  have hu : (getRequestParams w "POST" "/oauth/token" (refreshBody w.st)).url
      = refreshUrl := rfl
  simp only [hdata, Bool.false_eq_true, if_false, hrb, hu]

/-- An OAuth request whose first exchange is answered 401 enters the
refresh-and-retry branch of `httpRequest`'s catch clause. -/
theorem httpRequest_retry_path (p : Params) (w : World) (b0 : JsVal)
    (ht0 : w.transport w.calls = TransportResult.ok 401 b0)
    (hoauth : w.st.isOAuth = true) :
    httpRequest p true w =
      (match refreshTokenFn
          { w with
            calls := w.calls + 1
            trace := w.trace ++ [Ev.httpCall p.url] } with
        | (Except.error e2, w2) => (Except.error e2, w2)
        | (Except.ok res, w2) =>
          if jsTruthy res then
            sendOnce { p with auth := JsVal.obj [("bearer", w2.st._accessToken)] } w2
          else
            (Except.ok JsVal.undef, w2)) := by
  unfold httpRequest
  rw [sendOnce_401_oauth p w b0 ht0 hoauth]

/-- C1: an OAuth request answered 401 whose refresh call and retried request
both succeed resolves with the retried request's (unwrapped) success payload;
the stored `_accessToken` / `_refreshToken` equal the tokens of the refresh
response, the refresh endpoint is hit exactly once, and the registered
`didRefreshToken` handler runs exactly once, with the full refresh result. -/
theorem oauth_401_refresh_retry_success
    (w : World) (p : Params) (b0 rb ret : JsVal) (s1 s2 : Nat)
    (cb : JsVal → Except JsError JsVal) (u : JsVal)
    (hoauth : w.st.isOAuth = true)
    (hurl : p.url ≠ refreshUrl)
    (ht0 : w.transport w.calls = TransportResult.ok 401 b0)
    (ht1 : w.transport (w.calls + 1) = TransportResult.ok s1 rb)
    (hs1 : s1 < 300)
    (hrb : jsTruthy rb = true)
    (hdata : jsTruthy (getField rb "data") = false)
    (hcbreg : w.st._events "didRefreshToken" = some cb)
    (hcb : cb rb = Except.ok u)
    (ht2 : w.transport (w.calls + 2) = TransportResult.ok s2 ret)
    (hs2 : s2 < 300) :
    (httpRequest p true w).1 =
      Except.ok (if jsTruthy (getField ret "data") then getField ret "data" else ret)
    ∧ (httpRequest p true w).2.st._accessToken = getField rb "access_token"
    ∧ (httpRequest p true w).2.st._refreshToken = getField rb "refresh_token"
    ∧ countCallsTo refreshUrl (httpRequest p true w).2.trace
        = countCallsTo refreshUrl w.trace + 1
    ∧ cbPayloads (httpRequest p true w).2.trace = cbPayloads w.trace ++ [rb] := by
  have h1 := httpRequest_retry_path p w b0 ht0 hoauth
  have h2 := refreshTokenFn_2xx_cb
    { w with calls := w.calls + 1, trace := w.trace ++ [Ev.httpCall p.url] }
    s1 rb cb ht1 hs1 hdata hrb hcbreg
  simp only [hcb] at h2
  rw [h2] at h1
  simp only [hrb, if_true] at h1
  rw [sendOnce_2xx _ _ s2 ret ht2 hs2] at h1
  rw [h1]
  refine ⟨rfl, rfl, rfl, ?_, ?_⟩
  · simp [countCallsTo, List.filter_append, hurl]
  · simp [cbPayloads, List.filterMap_append]

/-- Witness for C1: the spec scenario — OAuth client `old`/`r1`, transport
401 then `\x7baccess_token: new, refresh_token: r2\x7d` then the user — ends
with the user payload, rotated tokens, one refresh call and one handler
invocation. -/
theorem oauth_401_refresh_retry_success_witness :
    (httpRequest sampleParams true sampleWorld).1
      = Except.ok (JsVal.obj [("id", JsVal.str "u1")])
    ∧ (httpRequest sampleParams true sampleWorld).2.st._accessToken
        = JsVal.str "new"
    ∧ (httpRequest sampleParams true sampleWorld).2.st._refreshToken
        = JsVal.str "r2"
    ∧ countCallsTo refreshUrl (httpRequest sampleParams true sampleWorld).2.trace
        = 1
    ∧ cbPayloads (httpRequest sampleParams true sampleWorld).2.trace
        = [sampleRefreshRes] := by
  have h := oauth_401_refresh_retry_success sampleWorld sampleParams
    (JsVal.obj []) sampleRefreshRes sampleUserRes 200 200 sampleCbOk
    JsVal.undef rfl (by decide) rfl rfl (by omega) rfl rfl rfl rfl rfl
    (by omega)
  exact h

/-- C4: an OAuth request answered 401 whose refresh succeeds (new non-null
`access_token` stored, handler — if any — succeeds) but whose retry is
answered 401 again surfaces the expired-token error built from the second 401
response, and the refresh endpoint is hit exactly once in total. -/
theorem oauth_second_401_terminal
    (w : World) (p : Params) (b0 rb b2 : JsVal) (s1 : Nat)
    (hoauth : w.st.isOAuth = true)
    (hurl : p.url ≠ refreshUrl)
    (ht0 : w.transport w.calls = TransportResult.ok 401 b0)
    (ht1 : w.transport (w.calls + 1) = TransportResult.ok s1 rb)
    (hs1 : s1 < 300)
    (hrb : jsTruthy rb = true)
    (hdata : jsTruthy (getField rb "data") = false)
    (hat : jsNeqNull (getField rb "access_token") = true)
    (hcb : ∀ cb, w.st._events "didRefreshToken" = some cb
        → ∃ u, cb rb = Except.ok u)
    (ht2 : w.transport (w.calls + 2) = TransportResult.ok 401 b2) :
    (httpRequest p true w).1
      = Except.error (JsError.expiredToken (stringifyJson b2))
    ∧ countCallsTo refreshUrl (httpRequest p true w).2.trace
        = countCallsTo refreshUrl w.trace + 1 := by
  have h1 := httpRequest_retry_path p w b0 ht0 hoauth
  cases hreg : w.st._events "didRefreshToken" with
  | some cb =>
    obtain ⟨u, hu⟩ := hcb cb hreg
    have h2 := refreshTokenFn_2xx_cb
      { w with calls := w.calls + 1, trace := w.trace ++ [Ev.httpCall p.url] }
      s1 rb cb ht1 hs1 hdata hrb hreg
    simp only [hu] at h2
    rw [h2] at h1
    simp only [hrb, if_true] at h1
    rw [sendOnce_401_oauth _ _ b2 ht2 (by simp [ClientState.isOAuth, hat])] at h1
    rw [h1]
    exact ⟨rfl, by simp [countCallsTo, List.filter_append, hurl]⟩
  | none =>
    have h2 := refreshTokenFn_2xx_nocb
      { w with calls := w.calls + 1, trace := w.trace ++ [Ev.httpCall p.url] }
      s1 rb ht1 hs1 hdata hrb hreg
    rw [h2] at h1
    simp only [hrb, if_true] at h1
    rw [sendOnce_401_oauth _ _ b2 ht2 (by simp [ClientState.isOAuth, hat])] at h1
    rw [h1]
    exact ⟨rfl, by simp [countCallsTo, List.filter_append, hurl]⟩

/-- Witness for C4: transport 401 / refresh success / 401 again ends in the
second 401's expired-token error after a single refresh call. -/
theorem oauth_second_401_terminal_witness :
    (httpRequest sampleParams true sampleWorld401).1
      = Except.error (JsError.expiredToken
          (stringifyJson (JsVal.obj [("errors", JsVal.arr [])])))
    ∧ countCallsTo refreshUrl (httpRequest sampleParams true sampleWorld401).2.trace
        = 1 := by
  have h := oauth_second_401_terminal sampleWorld401 sampleParams
    (JsVal.obj []) sampleRefreshRes (JsVal.obj [("errors", JsVal.arr [])]) 200
    rfl (by decide) rfl rfl (by omega) rfl rfl rfl
    (fun cb hc => ⟨JsVal.undef, by
      have hc' : some sampleCbOk = some cb := hc
      rw [← Option.some.inj hc']
      rfl⟩)
    rfl
  exact h

/-- C8: when the first exchange is 401, the refresh succeeds at the HTTP
level, and the registered `didRefreshToken` handler throws, the handler's
error is what the caller receives, and the retry of the original request is
never issued (exactly two requests leave the client). -/
theorem callback_error_aborts_retry
    (w : World) (p : Params) (b0 rb : JsVal) (s1 : Nat)
    (cb : JsVal → Except JsError JsVal) (e : JsError)
    (hoauth : w.st.isOAuth = true)
    (ht0 : w.transport w.calls = TransportResult.ok 401 b0)
    (ht1 : w.transport (w.calls + 1) = TransportResult.ok s1 rb)
    (hs1 : s1 < 300)
    (hrb : jsTruthy rb = true)
    (hdata : jsTruthy (getField rb "data") = false)
    (hcbreg : w.st._events "didRefreshToken" = some cb)
    (hcberr : cb rb = Except.error e) :
    (httpRequest p true w).1 = Except.error e
    ∧ (httpRequest p true w).2.calls = w.calls + 2 := by
  have h1 := httpRequest_retry_path p w b0 ht0 hoauth
  have h2 := refreshTokenFn_2xx_cb
    { w with calls := w.calls + 1, trace := w.trace ++ [Ev.httpCall p.url] }
    s1 rb cb ht1 hs1 hdata hrb hcbreg
  simp only [hcberr] at h2
  rw [h2] at h1
  rw [h1]
  exact ⟨rfl, rfl⟩

/-- Witness for C8: a handler rejecting with an opaque error aborts the
in-flight retry after the two issued requests and surfaces that error. -/
theorem callback_error_aborts_retry_witness :
    (httpRequest sampleParams true sampleWorldThrow).1
      = Except.error (JsError.ext 7)
    ∧ (httpRequest sampleParams true sampleWorldThrow).2.calls = 2 := by
  have h := callback_error_aborts_retry sampleWorldThrow sampleParams
    (JsVal.obj []) sampleRefreshRes 200 (fun _ => Except.error (JsError.ext 7))
    (JsError.ext 7) rfl rfl rfl (by omega) rfl rfl rfl rfl
  exact h

/-- Counterexample to C3 as stated: `revokeToken` passes no `refresh`
argument, so `httpPost`'s default `refresh = true` applies — a 401 on the
revoke call is not terminal: it triggers a token refresh (one call to the
refresh endpoint) and the retried revoke's success is returned. -/
theorem revoke_dispatched_with_refresh_cex :
    countCallsTo refreshUrl (revokeTokenFn sampleWorldRevoke).2.trace = 1
    ∧ (revokeTokenFn sampleWorldRevoke).1
        = Except.ok (JsVal.obj [("ok", JsVal.bool true)])
    ∧ (revokeTokenFn sampleWorldRevoke).2.calls = 3 :=
  ⟨rfl, rfl, rfl⟩

/-- C3 (amended): the refresh call itself is dispatched with
`refresh=false`, and for every request dispatched with `refresh=false` a 401
is surfaced as a terminal error — the expired-token error under OAuth, the
plain HTTP status error otherwise — with exactly one request issued and no
refresh triggered. (`revokeToken`, unlike the claim's statement, uses the
default `refresh=true`.) -/
theorem refresh_false_terminal_401
    (p : Params) (w w' : World) (b b' : JsVal)
    (ht : w.transport w.calls = TransportResult.ok 401 b)
    (ht' : w'.transport w'.calls = TransportResult.ok 401 b') :
    ((httpRequest p false w).1 = Except.error
        (if w.st.isOAuth then JsError.expiredToken (stringifyJson b)
          else JsError.generic
            ("HTTP error " ++ toString (401 : Nat) ++ " " ++ stringifyJson b))
      ∧ (httpRequest p false w).2.calls = w.calls + 1
      ∧ (httpRequest p false w).2.trace = w.trace ++ [Ev.httpCall p.url])
    ∧ ((refreshTokenFn w').1 = Except.error
        (if w'.st.isOAuth then JsError.expiredToken (stringifyJson b')
          else JsError.generic
            ("HTTP error " ++ toString (401 : Nat) ++ " " ++ stringifyJson b'))
      ∧ (refreshTokenFn w').2.calls = w'.calls + 1) := by
  constructor
  · rw [httpRequest_false_eq]
    unfold httpRequestNR
    cases ho : w.st.isOAuth
    · rw [sendOnce_401_noauth p w b ht ho]
      simp [ho]
    · rw [sendOnce_401_oauth p w b ht ho]
      simp [ho]
  · unfold refreshTokenFn httpRequestNR
    cases ho : w'.st.isOAuth
    · rw [sendOnce_401_noauth _ w' b' ht' ho]
      simp [ho]
    · rw [sendOnce_401_oauth _ w' b' ht' ho]
      simp [ho]

/-- Witness for C3 (amended): at the falsy-refresh world's transport (first
answer 401) a `refresh=false` dispatch and the refresh exchange itself are
both terminal after one request. -/
theorem refresh_false_terminal_401_witness :
    ((httpRequest sampleParams false sampleWorldFalsy).1
        = Except.error (JsError.expiredToken (stringifyJson (JsVal.obj [])))
      ∧ (httpRequest sampleParams false sampleWorldFalsy).2.calls = 1
      ∧ (httpRequest sampleParams false sampleWorldFalsy).2.trace
          = [Ev.httpCall sampleParams.url])
    ∧ ((refreshTokenFn sampleWorldFalsy).1
        = Except.error (JsError.expiredToken (stringifyJson (JsVal.obj [])))
      ∧ (refreshTokenFn sampleWorldFalsy).2.calls = 1) := by
  have h := refresh_false_terminal_401 sampleParams sampleWorldFalsy
    sampleWorldFalsy (JsVal.obj []) (JsVal.obj []) rfl rfl
  exact h

/-- C5 (code bug): when an OAuth request is answered 401 and the refresh
call resolves with a falsy value (here: status 200, body `''`), the catch
block of `httpRequest` falls through — the call resolves with `undefined`,
silently swallowing the original expired-token failure instead of surfacing
it. -/
theorem falsy_refresh_swallows_error
    : (sendOnce sampleParams sampleWorldFalsy).1
      = Except.error (JsError.expiredToken (stringifyJson (JsVal.obj [])))
    ∧ (httpRequest sampleParams true sampleWorldFalsy).1 = Except.ok JsVal.undef
    ∧ (httpRequest sampleParams true sampleWorldFalsy).2.calls = 2 :=
  ⟨rfl, rfl, rfl⟩

/-- Counterexample to C7 as stated: a refresh whose truthy response lacks an
`access_token` field stores `undefined` into `_accessToken`, flipping
`isOAuth` from `true` to `false` — a later operation can change the auth
mode. -/
theorem refresh_can_flip_isOAuth_cex :
    sampleWorldNoTok.st.isOAuth = true
    ∧ (refreshTokenFn sampleWorldNoTok).2.st.isOAuth = false :=
  ⟨rfl, rfl⟩

/-- C7 (amended): the auth mode is picked at construction by the presence of
`accessToken`, and a refresh preserves `isOAuth` provided the refresh
response carries a non-null `access_token` (or is falsy, leaving state
untouched); a truthy response without one can flip the mode. -/
theorem auth_mode_construction_and_preservation
    (o : Options) (w : World) (s : Nat) (b : JsVal)
    (hoauth : w.st.isOAuth = true)
    (htr : w.transport w.calls = TransportResult.ok s b)
    (hs : s < 300)
    (hdata : jsTruthy (getField b "data") = false)
    (htok : jsNeqNull (getField b "access_token") = true ∨ jsTruthy b = false) :
    (mkClient o).isOAuth = jsNeqNull o.accessToken
    ∧ (refreshTokenFn w).2.st.isOAuth = true := by
  refine ⟨rfl, ?_⟩
  cases hrb : jsTruthy b
  · rw [refreshTokenFn_2xx_falsy w s b htr hs hdata hrb]
    exact hoauth
  · rcases htok with hat | hfal
    · cases hreg : w.st._events "didRefreshToken" with
      | some cb =>
        rw [refreshTokenFn_2xx_cb w s b cb htr hs hdata hrb hreg]
        simp [ClientState.isOAuth, hat]
      | none =>
        rw [refreshTokenFn_2xx_nocb w s b htr hs hdata hrb hreg]
        simp [ClientState.isOAuth, hat]
    · rw [hfal] at hrb
      cases hrb

/-- Witness for C7 (amended): an OAuth-mode construction and a
token-carrying refresh that keeps `isOAuth` true. -/
theorem auth_mode_construction_and_preservation_witness :
    (mkClient { accessToken := JsVal.str "old" }).isOAuth
        = jsNeqNull (JsVal.str "old")
    ∧ (refreshTokenFn sampleWorldRefreshOnly).2.st.isOAuth = true := by
  have h := auth_mode_construction_and_preservation
    { accessToken := JsVal.str "old" } sampleWorldRefreshOnly 200
    sampleRefreshRes rfl rfl (by omega) rfl (Or.inl rfl)
  exact h

end Coinbase
